import Mathlib

/-!
Shallow embedding of the resume-enhancer upload pipeline
(`src/web-app/src/app/api/extract-text/route.ts`) and proofs about it.

The route handler `POST` validates an uploaded file, writes it to a temp
path built from the OS temp dir, a millisecond timestamp and the client
filename, runs an extraction worker (fatal on failure), runs an
anonymization worker (fail-soft), deletes the temp file, and responds.

Nondeterministic aspects of the environment (presence of the form file,
the clock, success of the filesystem writes/deletes, and the outcomes of
the two spawned workers) are inputs gathered in `Env`.  `POST` returns
the HTTP response together with a trace of the side effects it performed,
in order.
-/

namespace ResumeEnhancer

/-- The uploaded `File` object as the handler reads it: `name`, declared
mime `type`, and `size` in bytes. -/
structure UploadedFile where
  name : String
  type : String
  size : Nat
deriving Repr, DecidableEq

/-- Outcome of one `spawn` call: either the process failed to start
(`spawnError`, the `error` event) or it ran and closed with an exit
`code`, having produced `stdout` and `stderr`. -/
inductive SpawnOutcome where
  | spawnError (msg : String)
  | exited (code : Int) (stdout stderr : String)
deriving Repr, DecidableEq

/-- Split a character list into the slash-separated path segments. -/
def splitSlash : List Char → List Char → List String
  | cur, [] => [String.mk cur.reverse]
  | cur, c :: cs =>
      if c = '/' then String.mk cur.reverse :: splitSlash [] cs
      else splitSlash (c :: cur) cs

/-- One step of node `normalizeString`: empty and dot segments are
dropped; a dot-dot segment pops the previous segment when there is one
that is not itself dot-dot, is kept when climbing above the start of a
relative path (`allowAboveRoot`), and is dropped above the root of an
absolute path. The accumulator holds the kept segments reversed. -/
def normStep (allowAboveRoot : Bool) (acc : List String) (s : String) :
    List String :=
  if s = "" ∨ s = "." then acc
  else if s = ".." then
    match acc with
    | [] => if allowAboveRoot then [".."] else []
    | t :: rest => if t = ".." then (if allowAboveRoot then s :: acc else acc)
                   else rest
  else s :: acc

/-- The normalized segments of a path, in order. -/
def normSegs (allowAboveRoot : Bool) (segs : List String) : List String :=
  (segs.foldl (normStep allowAboveRoot) []).reverse

/-- Join segments with single separators. -/
def joinSegs : List String → String
  | [] => ""
  | [s] => s
  | s :: rest => s ++ "/" ++ joinSegs rest

/-- Model of node `path.posix.normalize`: resolves `.` and `..`
segments and duplicate separators, keeps a leading separator of an
absolute path and a trailing separator of the input, and falls back to
`.` / `/` when everything cancels. -/
def normalize (p : String) : String :=
  if p.data.isEmpty then "."
  else
    let abs := p.data.head? == some '/'
    let trailing := p.data.getLast? == some '/'
    let core := normSegs (!abs) (splitSlash [] p.data)
    if core.isEmpty then
      if abs then "/" else if trailing then "./" else "."
    else
      (if abs then "/" else "") ++ joinSegs core ++
        (if trailing then "/" else "")

/-- Model of node `path.posix.join` for the two arguments the route
passes: empty arguments are skipped, the rest are concatenated with a
separator and the result is normalized. -/
def join (a b : String) : String :=
  if a = "" ∧ b = "" then "."
  else if a = "" then normalize b
  else if b = "" then normalize a
  else normalize (a ++ "/" ++ b)

/-- The temp path the handler builds at line 32 of the route:
tmpdir joined with the template string built from the millisecond
timestamp and the client-supplied filename, embedded verbatim. -/
def tempFilePath (tmpdir : String) (now : Nat) (name : String) : String :=
  join tmpdir ("temp_" ++ toString now ++ "_" ++ name)

/-- The directory component of a path: everything before the last
separator (the whole path is returned unchanged if no separator). -/
def dirname (p : String) : String :=
  match p.data.reverse.dropWhile (fun c => c ≠ '/') with
  | [] => p
  | _ :: rest => String.mk rest.reverse

/-- Model of the JavaScript string trim method used on worker stdout:
strips leading and trailing whitespace. Implemented structurally over
the character list so that it evaluates inside the kernel. -/
def jsTrim (s : String) : String :=
  String.mk
    (((s.data.dropWhile Char.isWhitespace).reverse.dropWhile
        Char.isWhitespace).reverse)

/-- `extractTextFromFile` (route lines 73-102): resolves with trimmed
stdout on exit code 0, rejects on non-zero exit or on spawn error. -/
def extractTextFromFile (o : SpawnOutcome) : Except String String :=
  match o with
  | .spawnError msg => .error ("Failed to start Python process: " ++ msg)
  | .exited code stdout stderr =>
      if code = 0 then .ok (jsTrim stdout)
      else .error ("Python script failed: " ++ stderr)

/-- `preprocessText` (route lines 104-144): resolves with trimmed stdout
on exit code 0; on non-zero exit or spawn error it resolves with the
original `text` (it never rejects). -/
def preprocessText (text : String) (o : SpawnOutcome) : String :=
  match o with
  | .spawnError _ => text
  | .exited code stdout _ => if code = 0 then jsTrim stdout else text

/-- One environment for one request: what `request.formData()` yields,
the clock, and the outcomes of the filesystem and worker operations the
handler may perform.  `unlink1Ok` is the outcome of the first `unlink`
call of the request, `unlink2Ok` of the second (the route makes at most
two). -/
structure Env where
  formDataOk : Bool
  formFile : Option UploadedFile
  tmpdir : String
  now : Nat
  writeOk : Bool
  extraction : SpawnOutcome
  anonymization : SpawnOutcome
  unlink1Ok : Bool
  unlink2Ok : Bool
deriving Repr, DecidableEq

/-- Side effects of the handler, in program order. -/
inductive Event where
  | tempWrite (path : String) (ok : Bool)
  | extractInvoke (path : String)
  | anonInvoke (text : String)
  | unlinkCall (path : String) (ok : Bool)
deriving Repr, DecidableEq

/-- A JSON response body: either an error `message` or the success
payload `text`/`rawText`/`filename`/`size`. -/
inductive Body where
  | message (msg : String)
  | result (text rawText filename : String) (size : Nat)
deriving Repr, DecidableEq

/-- An HTTP response: status code plus JSON body. -/
structure Response where
  status : Nat
  body : Body
deriving Repr, DecidableEq

/-- The generic 500 answer produced by the outer catch (route lines
65-70). -/
def err500 : Response :=
  ⟨500, .message "Error processing file. Please try again."⟩

/-- The `POST` handler (route lines 7-71), returning the response and
the trace of side effects. Control flow is translated branch by branch:
the outer try/catch turns every escaped exception (formData failure,
write failure, extraction failure, unlink failure) into `err500`; the
inner catch (lines 59-63) performs the second unlink attempt before
rethrowing. -/
def POST (e : Env) : Response × List Event :=
  if e.formDataOk = false then (err500, [])
  else
    match e.formFile with
    | none => (⟨400, .message "No file provided"⟩, [])
    | some file =>
      if file.type ≠ "application/pdf" then
        (⟨400, .message "Invalid file type. Only PDF files are allowed."⟩, [])
      else if file.size > 5 * 1024 * 1024 then
        (⟨400, .message "File too large. Maximum size is 5MB."⟩, [])
      else
        let path := tempFilePath e.tmpdir e.now file.name
        if e.writeOk = false then (err500, [.tempWrite path false])
        else
          match extractTextFromFile e.extraction with
          | .error _ =>
              (err500,
               [.tempWrite path true, .extractInvoke path,
                .unlinkCall path e.unlink1Ok])
          | .ok extractedText =>
              let preprocessedText := preprocessText extractedText e.anonymization
              if e.unlink1Ok then
                (⟨200, .result preprocessedText extractedText file.name file.size⟩,
                 [.tempWrite path true, .extractInvoke path,
                  .anonInvoke extractedText, .unlinkCall path true])
              else
                (err500,
                 [.tempWrite path true, .extractInvoke path,
                  .anonInvoke extractedText, .unlinkCall path false,
                  .unlinkCall path e.unlink2Ok])

/-- Whether an event is an unlink (release) attempt. -/
def isUnlinkCall : Event → Bool
  | .unlinkCall _ _ => true
  | _ => false

/-- Number of release (unlink) attempts a request performs. -/
def releaseAttempts (e : Env) : Nat :=
  ((POST e).2.filter isUnlinkCall).length

/-- Whether a worker outcome counts as failure for the route: spawn
error or non-zero exit. -/
def workerFailed : SpawnOutcome → Bool
  | .spawnError _ => true
  | .exited code _ _ => code ≠ 0

/-- Whether the request acquires the temp resource: formData parses, a
file is present, it passes both validation checks, and the write
succeeds. -/
def acquires (e : Env) : Bool :=
  e.formDataOk &&
    (match e.formFile with
     | none => false
     | some f => f.type == "application/pdf" && decide (f.size ≤ 5 * 1024 * 1024)) &&
    e.writeOk

/-- A nominal request environment: valid PDF upload, all operations
succeed. Fields are overridden per scenario below. -/
def okEnv : Env :=
  { formDataOk := true
    formFile := some ⟨"cv.pdf", "application/pdf", 100⟩
    tmpdir := "/tmp"
    now := 1700000000000
    writeOk := true
    extraction := .exited 0 "John Doe, Software Engineer" ""
    anonymization := .exited 0 "[NAME], Software Engineer" ""
    unlink1Ok := true
    unlink2Ok := true }

/-- Scenario: everything succeeds except the first unlink. -/
def doubleUnlinkEnv : Env := { okEnv with unlink1Ok := false, unlink2Ok := false }

/-- Scenario: extraction and anonymization succeed, deleting the temp
file fails. -/
def unlinkFailEnv : Env :=
  { okEnv with formFile := some ⟨"report.pdf", "application/pdf", 2048⟩,
               unlink1Ok := false }

/-- Scenario: anonymization worker exits 0 with empty stdout. -/
def emptyAnonEnv : Env := { okEnv with anonymization := .exited 0 "" "" }

/-- Scenario: request A of a same-millisecond pair with identical
filenames. -/
def collideEnvA : Env := { okEnv with formFile := some ⟨"cv.pdf", "application/pdf", 100⟩ }

/-- Scenario: request B of the pair — a different upload (different
size and extraction output) but the same filename and timestamp. -/
def collideEnvB : Env :=
  { okEnv with formFile := some ⟨"cv.pdf", "application/pdf", 200⟩,
               extraction := .exited 0 "Jane Roe, Accountant" "" }

/-- Scenario: the multipart form has no file field. -/
def noFileEnv : Env := { okEnv with formFile := none }

/-- Scenario: extraction worker exits 1. -/
def extractFailEnv : Env :=
  { okEnv with extraction := .exited 1 "" "corrupt PDF" }

/-- Scenario: anonymization worker exits 1. -/
def anonFailEnv : Env :=
  { okEnv with anonymization := .exited 1 "" "boom" }

/-- Scenario: wrong declared mime type. -/
def wrongTypeEnv : Env :=
  { okEnv with formFile := some ⟨"cv.doc", "application/msword", 100⟩ }

/-! ## Helper lemmas -/

/-- A request with a file that passes both validation checks always
reaches the temp write, whatever the later outcomes. -/
theorem tempWrite_mem_of_valid (e : Env) (f : UploadedFile)
    (hform : e.formDataOk = true) (hfile : e.formFile = some f)
    (htype : f.type = "application/pdf") (hsize : f.size ≤ 5 * 1024 * 1024) :
    Event.tempWrite (tempFilePath e.tmpdir e.now f.name) e.writeOk ∈ (POST e).2 := by
  have hsize' : ¬ f.size > 5 * 1024 * 1024 := by omega
  cases hw : e.writeOk with
  | false => simp [POST, hform, hfile, htype, hsize', hw]
  | true =>
      rcases hx : extractTextFromFile e.extraction with msg | txt
      · simp [POST, hform, hfile, htype, hsize', hw, hx]
      · cases hu : e.unlink1Ok <;>
          simp [POST, hform, hfile, htype, hsize', hw, hx, hu]

/-! ## Theorems -/

/-- C10: if the multipart form data contains no file field, the endpoint
responds HTTP 400 with the message "No file provided", without writing
any temp file and without invoking either worker (empty effect trace). -/
theorem c10_no_file (e : Env) (hform : e.formDataOk = true)
    (hfile : e.formFile = none) :
    (POST e).1 = ⟨400, .message "No file provided"⟩ ∧ (POST e).2 = [] := by
  simp [POST, hform, hfile]

/-- Witness for C10 at a concrete environment. -/
theorem c10_no_file_witness :
    (POST noFileEnv).1 = ⟨400, .message "No file provided"⟩ ∧
      (POST noFileEnv).2 = [] :=
  c10_no_file noFileEnv rfl rfl

/-- C3: a request with a file passes validation iff the declared mime
type is exactly application pdf and the size is at most 5 times 1024
times 1024 bytes, in which case the temp write is attempted; otherwise
the endpoint responds HTTP 400 with a message and performs no side
effect at all (no temp write, no worker invocation). -/
theorem c3_validation (e : Env) (f : UploadedFile)
    (hform : e.formDataOk = true) (hfile : e.formFile = some f) :
    (f.type = "application/pdf" ∧ f.size ≤ 5 * 1024 * 1024 →
       Event.tempWrite (tempFilePath e.tmpdir e.now f.name) e.writeOk ∈ (POST e).2) ∧
    (¬ (f.type = "application/pdf" ∧ f.size ≤ 5 * 1024 * 1024) →
       (POST e).1.status = 400 ∧ (∃ m, (POST e).1.body = .message m) ∧
         (POST e).2 = []) := by
  constructor
  · rintro ⟨htype, hsize⟩
    exact tempWrite_mem_of_valid e f hform hfile htype hsize
  · intro hbad
    by_cases htype : f.type = "application/pdf"
    · have hsize : f.size > 5 * 1024 * 1024 := by
        rcases Nat.lt_or_ge (5 * 1024 * 1024) f.size with h | h
        · exact h
        · exact absurd ⟨htype, h⟩ hbad
      simp [POST, hform, hfile, htype, hsize]
    · simp [POST, hform, hfile, htype]

/-- Witness for C3 at a concrete environment (wrong declared type). -/
theorem c3_validation_witness :
    (POST wrongTypeEnv).1.status = 400 ∧
      (∃ m, (POST wrongTypeEnv).1.body = .message m) ∧
      (POST wrongTypeEnv).2 = [] :=
  (c3_validation wrongTypeEnv ⟨"cv.doc", "application/msword", 100⟩ rfl rfl).2
    (by decide)

/-- C2: for a request whose extraction succeeds, the processed text in
the response equals the anonymization worker's (trimmed) stdout when
that worker exits 0, and equals the raw text verbatim when the worker
exits non-zero or fails to spawn; in each case the request completes
with HTTP 200, and the response status never depends on the
anonymization outcome at all. -/
theorem c2_anonymization_fail_soft (e : Env) (f : UploadedFile) (out err : String)
    (hform : e.formDataOk = true) (hfile : e.formFile = some f)
    (htype : f.type = "application/pdf") (hsize : f.size ≤ 5 * 1024 * 1024)
    (hw : e.writeOk = true) (hx : e.extraction = .exited 0 out err)
    (hu : e.unlink1Ok = true) :
    (∀ aout aerr, e.anonymization = .exited 0 aout aerr →
        (POST e).1.body = .result (jsTrim aout) (jsTrim out) f.name f.size) ∧
    (workerFailed e.anonymization = true →
        (POST e).1.body = .result (jsTrim out) (jsTrim out) f.name f.size) ∧
    (POST e).1.status = 200 ∧
    (∀ a, (POST { e with anonymization := a }).1.status = 200) := by
  have hsize' : ¬ f.size > 5 * 1024 * 1024 := by omega
  refine ⟨fun aout aerr ha => ?_, fun ha => ?_, ?_, fun a => ?_⟩
  · simp [POST, hform, hfile, htype, hsize', hw, hx, hu, ha,
      extractTextFromFile, preprocessText]
  · rcases ha' : e.anonymization with msg | ⟨code, aout, aerr⟩
    · simp [POST, hform, hfile, htype, hsize', hw, hx, hu, ha',
        extractTextFromFile, preprocessText]
    · rw [ha'] at ha
      have hc : ¬ code = 0 := by simpa [workerFailed] using ha
      simp [POST, hform, hfile, htype, hsize', hw, hx, hu, ha', hc,
        extractTextFromFile, preprocessText]
  · simp [POST, hform, hfile, htype, hsize', hw, hx, hu, extractTextFromFile]
  · simp [POST, hform, hfile, htype, hsize', hw, hx, hu, extractTextFromFile]

/-- Witness for C2 at a concrete environment (anonymization exits 1 and
the response still carries the raw text with status 200). -/
theorem c2_anonymization_fail_soft_witness :
    (workerFailed anonFailEnv.anonymization = true →
        (POST anonFailEnv).1.body =
          .result (jsTrim "John Doe, Software Engineer")
            (jsTrim "John Doe, Software Engineer") "cv.pdf" 100) ∧
      (POST anonFailEnv).1.status = 200 :=
  ⟨((c2_anonymization_fail_soft anonFailEnv ⟨"cv.pdf", "application/pdf", 100⟩
      "John Doe, Software Engineer" "" rfl rfl rfl (by decide) rfl rfl rfl).2.1),
   ((c2_anonymization_fail_soft anonFailEnv ⟨"cv.pdf", "application/pdf", 100⟩
      "John Doe, Software Engineer" "" rfl rfl rfl (by decide) rfl rfl rfl).2.2.1)⟩

/-- C4: when the extraction worker fails to start or exits non-zero the
request is aborted with HTTP 500 and a JSON message, and the unlink of
the temp path is still attempted (it appears in the effect trace before
the response is produced). -/
theorem c4_extraction_failure_fatal (e : Env) (f : UploadedFile)
    (hform : e.formDataOk = true) (hfile : e.formFile = some f)
    (htype : f.type = "application/pdf") (hsize : f.size ≤ 5 * 1024 * 1024)
    (hw : e.writeOk = true) (hx : workerFailed e.extraction = true) :
    (POST e).1.status = 500 ∧ (∃ m, (POST e).1.body = .message m) ∧
      Event.unlinkCall (tempFilePath e.tmpdir e.now f.name) e.unlink1Ok ∈
        (POST e).2 := by
  have hsize' : ¬ f.size > 5 * 1024 * 1024 := by omega
  rcases ha : e.extraction with msg | ⟨code, sout, serr⟩
  · simp [POST, hform, hfile, htype, hsize', hw, ha, extractTextFromFile, err500]
  · rw [ha] at hx
    have hc : ¬ code = 0 := by simpa [workerFailed] using hx
    simp [POST, hform, hfile, htype, hsize', hw, ha, hc, extractTextFromFile,
      err500]

/-- Witness for C4 at a concrete environment (worker exits 1). -/
theorem c4_extraction_failure_fatal_witness :
    (POST extractFailEnv).1.status = 500 ∧
      (∃ m, (POST extractFailEnv).1.body = .message m) ∧
      Event.unlinkCall (tempFilePath "/tmp" 1700000000000 "cv.pdf") true ∈
        (POST extractFailEnv).2 :=
  c4_extraction_failure_fatal extractFailEnv ⟨"cv.pdf", "application/pdf", 100⟩
    rfl rfl rfl (by decide) rfl rfl

/-- C8: a fully successful request responds HTTP 200 with body fields
text equal to the processed text, rawText equal to the extraction
worker's stdout trimmed of leading and trailing whitespace, filename
equal to the uploaded file's name, and size equal to its size in
bytes. -/
theorem c8_success_response (e : Env) (f : UploadedFile) (out err : String)
    (hform : e.formDataOk = true) (hfile : e.formFile = some f)
    (htype : f.type = "application/pdf") (hsize : f.size ≤ 5 * 1024 * 1024)
    (hw : e.writeOk = true) (hx : e.extraction = .exited 0 out err)
    (hu : e.unlink1Ok = true) :
    (POST e).1 =
      ⟨200, .result (preprocessText (jsTrim out) e.anonymization) (jsTrim out)
        f.name f.size⟩ := by
  have hsize' : ¬ f.size > 5 * 1024 * 1024 := by omega
  simp [POST, hform, hfile, htype, hsize', hw, hx, hu, extractTextFromFile]

/-- Witness for C8 at a concrete environment. -/
theorem c8_success_response_witness :
    (POST okEnv).1 =
      ⟨200, .result (preprocessText (jsTrim "John Doe, Software Engineer")
          (.exited 0 "[NAME], Software Engineer" ""))
        (jsTrim "John Doe, Software Engineer") "cv.pdf" 100⟩ :=
  c8_success_response okEnv ⟨"cv.pdf", "application/pdf", 100⟩
    "John Doe, Software Engineer" "" rfl rfl rfl (by decide) rfl rfl rfl

/-- C9: for every request that passes validation the attempted temp
write targets exactly the OS temp directory joined (node path join,
dot-segment normalization included) with the string temp underscore
timestamp underscore client filename, the filename embedded verbatim
and unsanitized into the joined string; consequently a filename
containing a path separator, or dot-dot segments, changes the directory
the bytes land in, as the two concrete conjuncts show. -/
theorem c9_temp_path_unsanitized (e : Env) (f : UploadedFile)
    (hform : e.formDataOk = true) (hfile : e.formFile = some f)
    (htype : f.type = "application/pdf") (hsize : f.size ≤ 5 * 1024 * 1024) :
    Event.tempWrite (join e.tmpdir ("temp_" ++ toString e.now ++ "_" ++ f.name))
        e.writeOk ∈ (POST e).2 ∧
      dirname (tempFilePath "/tmp" 1700000000000 "a/evil.pdf") ≠ "/tmp" ∧
      dirname (tempFilePath "/tmp" 1700000000000 "a/../../evil.pdf") ≠ "/tmp" := by
  refine ⟨?_, by decide, by decide⟩
  simpa [tempFilePath] using tempWrite_mem_of_valid e f hform hfile htype hsize

/-- Witness for C9 at a concrete environment. -/
theorem c9_temp_path_unsanitized_witness :
    Event.tempWrite
        (join "/tmp" ("temp_" ++ toString 1700000000000 ++ "_" ++ "cv.pdf")) true ∈
        (POST okEnv).2 ∧
      dirname (tempFilePath "/tmp" 1700000000000 "a/evil.pdf") ≠ "/tmp" ∧
      dirname (tempFilePath "/tmp" 1700000000000 "a/../../evil.pdf") ≠ "/tmp" :=
  c9_temp_path_unsanitized okEnv ⟨"cv.pdf", "application/pdf", 100⟩ rfl rfl rfl
    (by decide)

/-- C1 counterexample: a request that acquires the temp file and whose
first unlink fails performs two release attempts on that exit path, not
exactly one. -/
theorem c1_counterexample :
    acquires doubleUnlinkEnv = true ∧ releaseAttempts doubleUnlinkEnv = 2 := by
  decide

/-- C1 amended: a request performs zero release attempts when the temp
write is never reached or fails, exactly one on every exit path where
the first unlink succeeds or extraction failed, and exactly two on the
path where extraction succeeded but the first unlink fails; moreover the
outcome of the second unlink never influences the response. -/
theorem c1_release_discipline (e : Env) (b : Bool) :
    releaseAttempts e =
      (if acquires e = true then
         if workerFailed e.extraction = false ∧ e.unlink1Ok = false then 2 else 1
       else 0) ∧
    (POST { e with unlink2Ok := b }).1 = (POST e).1 := by
  obtain ⟨fd, ff, td, now, w, ex, an, u1, u2⟩ := e
  cases fd
  · simp [POST, releaseAttempts, acquires, isUnlinkCall]
  · cases ff with
    | none => simp [POST, releaseAttempts, acquires, isUnlinkCall]
    | some f =>
      by_cases htype : f.type = "application/pdf"
      · by_cases hsize : f.size > 5 * 1024 * 1024
        · have : ¬ f.size ≤ 5 * 1024 * 1024 := by omega
          simp [POST, releaseAttempts, acquires, isUnlinkCall, htype, hsize, this]
        · have hsz : f.size ≤ 5 * 1024 * 1024 := by omega
          cases w
          · simp [POST, releaseAttempts, acquires, isUnlinkCall, htype, hsize, hsz]
          · rcases ex with msg | ⟨code, sout, serr⟩
            · simp [POST, releaseAttempts, acquires, isUnlinkCall, htype, hsize,
                hsz, extractTextFromFile, workerFailed]
            · by_cases hc : code = 0 <;> cases u1 <;>
                simp [POST, releaseAttempts, acquires, isUnlinkCall, htype, hsize,
                  hsz, extractTextFromFile, workerFailed, hc]
      · simp [POST, releaseAttempts, acquires, isUnlinkCall, htype]

/-- C5 counterexample: a request whose extraction and anonymization both
succeed but whose temp-file deletion fails responds with the generic
HTTP 500, not HTTP 200: the deletion failure is fatal, not swallowed. -/
theorem c5_counterexample :
    workerFailed unlinkFailEnv.extraction = false ∧
      workerFailed unlinkFailEnv.anonymization = false ∧
      (POST unlinkFailEnv).1 = err500 ∧ (POST unlinkFailEnv).1.status ≠ 200 := by
  decide

/-- C5 amended: a failure of the temp-file deletion is not swallowed:
the unlink error propagates to the generic catch, so a request whose
extraction succeeded responds HTTP 500 whenever the first unlink fails,
even though extraction and anonymization produced their results. -/
theorem c5_unlink_failure_fatal (e : Env) (f : UploadedFile) (out err : String)
    (hform : e.formDataOk = true) (hfile : e.formFile = some f)
    (htype : f.type = "application/pdf") (hsize : f.size ≤ 5 * 1024 * 1024)
    (hw : e.writeOk = true) (hx : e.extraction = .exited 0 out err)
    (hu : e.unlink1Ok = false) :
    (POST e).1 = err500 := by
  have hsize' : ¬ f.size > 5 * 1024 * 1024 := by omega
  simp [POST, hform, hfile, htype, hsize', hw, hx, hu, extractTextFromFile]

/-- Witness for the amended C5 at a concrete environment. -/
theorem c5_unlink_failure_fatal_witness : (POST unlinkFailEnv).1 = err500 :=
  c5_unlink_failure_fatal unlinkFailEnv ⟨"report.pdf", "application/pdf", 2048⟩
    "John Doe, Software Engineer" "" rfl rfl rfl (by decide) rfl rfl rfl

/-- C6 counterexample: the anonymization worker exits 0 with empty
stdout, and the successful response carries an empty processed text
next to a non-empty raw text, violating the claimed invariant. -/
theorem c6_counterexample :
    (POST emptyAnonEnv).1 =
        ⟨200, .result "" "John Doe, Software Engineer" "cv.pdf" 100⟩ ∧
      "John Doe, Software Engineer" ≠ "" := by
  decide

/-- C6 amended: in a successful response the processed text can be empty
only if the raw text is empty or the anonymization worker exited 0 with
stdout that trims to the empty string; in the latter case the processed
text is empty even though the raw text is not. -/
theorem c6_processed_empty_only_if (e : Env) (f : UploadedFile)
    (out err t r fn : String) (sz : Nat)
    (hform : e.formDataOk = true) (hfile : e.formFile = some f)
    (htype : f.type = "application/pdf") (hsize : f.size ≤ 5 * 1024 * 1024)
    (hw : e.writeOk = true) (hx : e.extraction = .exited 0 out err)
    (hu : e.unlink1Ok = true)
    (hb : (POST e).1.body = .result t r fn sz) (ht : t = "") :
    r = "" ∨ ∃ aout aerr, e.anonymization = .exited 0 aout aerr ∧ jsTrim aout = "" := by
  have hsize' : ¬ f.size > 5 * 1024 * 1024 := by omega
  have hbody : (POST e).1.body =
      .result (preprocessText (jsTrim out) e.anonymization) (jsTrim out) f.name f.size := by
    simp [POST, hform, hfile, htype, hsize', hw, hx, hu, extractTextFromFile]
  rw [hb] at hbody
  rcases ha : e.anonymization with msg | ⟨code, aout, aerr⟩
  · left
    rw [ha] at hbody
    simp only [preprocessText, Body.result.injEq] at hbody
    exact hbody.2.1.trans (hbody.1.symm.trans ht)
  · by_cases hc : code = 0
    · right
      subst hc
      rw [ha] at hbody
      simp only [preprocessText, if_pos rfl, Body.result.injEq] at hbody
      exact ⟨aout, aerr, rfl, hbody.1.symm.trans ht⟩
    · left
      rw [ha] at hbody
      simp only [preprocessText, if_neg hc, Body.result.injEq] at hbody
      exact hbody.2.1.trans (hbody.1.symm.trans ht)

/-- Witness for the amended C6 at a concrete environment. -/
theorem c6_processed_empty_only_if_witness :
    "John Doe, Software Engineer" = "" ∨
      ∃ aout aerr,
        emptyAnonEnv.anonymization = SpawnOutcome.exited 0 aout aerr ∧
          jsTrim aout = "" :=
  c6_processed_empty_only_if emptyAnonEnv ⟨"cv.pdf", "application/pdf", 100⟩
    "John Doe, Software Engineer" "" "" "John Doe, Software Engineer" "cv.pdf" 100
    rfl rfl rfl (by decide) rfl rfl rfl (by decide) rfl

/-- C7 counterexample: two different requests (the uploads differ in
size and content) that carry the same filename and are served in the
same millisecond write to the same temp path: path generation is not
injective across requests. -/
theorem c7_counterexample :
    collideEnvA ≠ collideEnvB ∧
      Event.tempWrite "/tmp/temp_1700000000000_cv.pdf" true ∈ (POST collideEnvA).2 ∧
      Event.tempWrite "/tmp/temp_1700000000000_cv.pdf" true ∈ (POST collideEnvB).2 := by
  decide

/-- C7 amended: temp path generation is not injective across requests.
The path is a pure function of the temp directory, the millisecond
timestamp and the client filename, so any two validated requests that
agree on those three — whatever their contents and worker outcomes —
attempt their temp writes at the same path; moreover, because path join
resolves dot-dot segments, a filename carrying such segments can
produce the same path even under different timestamps, as the last
conjunct shows. -/
theorem c7_temp_path_collision (e1 e2 : Env) (f1 f2 : UploadedFile)
    (hfile1 : e1.formFile = some f1) (hfile2 : e2.formFile = some f2)
    (hform1 : e1.formDataOk = true) (hform2 : e2.formDataOk = true)
    (htype1 : f1.type = "application/pdf") (htype2 : f2.type = "application/pdf")
    (hsize1 : f1.size ≤ 5 * 1024 * 1024) (hsize2 : f2.size ≤ 5 * 1024 * 1024)
    (htd : e1.tmpdir = e2.tmpdir) (hnow : e1.now = e2.now)
    (hname : f1.name = f2.name) :
    (∃ p, Event.tempWrite p e1.writeOk ∈ (POST e1).2 ∧
        Event.tempWrite p e2.writeOk ∈ (POST e2).2) ∧
      tempFilePath "/tmp" 1700000000000 "a/../../evil.pdf" =
        tempFilePath "/tmp" 1700000000001 "a/../../evil.pdf" := by
  refine ⟨⟨tempFilePath e1.tmpdir e1.now f1.name, ?_, ?_⟩, by decide⟩
  · exact tempWrite_mem_of_valid e1 f1 hform1 hfile1 htype1 hsize1
  · rw [htd, hnow, hname]
    exact tempWrite_mem_of_valid e2 f2 hform2 hfile2 htype2 hsize2

/-- Witness for the amended C7 at the two concrete colliding
environments. -/
theorem c7_temp_path_collision_witness :
    (∃ p, Event.tempWrite p collideEnvA.writeOk ∈ (POST collideEnvA).2 ∧
        Event.tempWrite p collideEnvB.writeOk ∈ (POST collideEnvB).2) ∧
      tempFilePath "/tmp" 1700000000000 "a/../../evil.pdf" =
        tempFilePath "/tmp" 1700000000001 "a/../../evil.pdf" :=
  c7_temp_path_collision collideEnvA collideEnvB
    ⟨"cv.pdf", "application/pdf", 100⟩ ⟨"cv.pdf", "application/pdf", 200⟩
    rfl rfl rfl rfl rfl rfl (by decide) (by decide) rfl rfl rfl

end ResumeEnhancer
